import Mathlib

/-!
Verification of the AVE geofence-attendance service.

Shallow embedding of `src/app/services/GeofenceService.py` and
`src/app/services/UserService.py` over explicit state records.  Persistence
(SQLAlchemy repositories) is modelled as lookups over lists; each service
method becomes a pure function from a state to a result paired with the
successor state.  `HTTPException` carries the status code and detail string
exactly as raised by the Python code.  Repository methods whose source file
is not part of the repository snapshot are modelled from the specification
and marked as such in their doc comments.
-/

/-- Embeds FastAPI's `HTTPException(status_code=..., detail=...)`. -/
structure HTTPException where
  status_code : Nat
  detail : String
deriving DecidableEq, Repr

/-- A row of the `users` table, as read through
`UserRepository.get_user_by_email_or_matric` (fields surfaced by
`UserService.get_user_by_email_or_matric`). -/
structure User where
  username : String
  user_matric : String
  email : String
  hashed_password : String
deriving DecidableEq, Repr

/-- A geofence row: name, creator matric, date of its start time, join code
and status string ("active" / "inactive"), as used by
`GeofenceService`.  The geometric fields (centre, radius) are not needed
explicitly because the membership test `check_user_in_circular_geofence`
is abstracted as a function over the whole row. -/
structure Geofence where
  name : String
  date : Int
  creator_matric : String
  fence_code : String
  status : String
deriving DecidableEq, Repr

/-- An attendance row keyed by `matric_fence_code` (join code ++ user matric),
as inserted by `GeofenceRepository.record_geofence_attendance`. -/
structure AttendanceRecord where
  user_matric : String
  fence_code : String
  geofence_name : String
  matric_fence_code : String
deriving DecidableEq, Repr

/-- The durable state visible to `GeofenceService`. -/
structure GeoState where
  users : List User
  geofences : List Geofence
  attendances : List AttendanceRecord
deriving DecidableEq, Repr

/-- `UserRepository.get_user_by_email_or_matric(matric=m)` as used by the
attendance path: the SQL `or_` clause with a NULL email matches on the
matric alone. -/
def GeoState.find_user (st : GeoState) (matric : String) : Option User :=
  st.users.find? (fun u => u.user_matric == matric)

/-- Modelled from the spec: `find-geofence-by-join-code`, the repository
lookup behind `GeofenceService.get_geofence_by_fence_code`. -/
def GeoState.find_geofence_by_code (st : GeoState) (code : String) : Option Geofence :=
  st.geofences.find? (fun g => g.fence_code == code)

/-- Modelled from the spec: `find-geofence-by-name-and-date`, the repository
lookup `GeofenceRepository.get_geofence(name, date)`. -/
def GeoState.find_geofence_by_name_date (st : GeoState) (name : String) (date : Int) :
    Option Geofence :=
  st.geofences.find? (fun g => g.name == name && g.date == date)

/-- Modelled from the spec: `find-attendance-by-idempotency-key`
(`GeofenceRepository.get_attendance_record_for_student_for_geofence`). -/
def GeoState.find_attendance (st : GeoState) (key : String) : Option AttendanceRecord :=
  st.attendances.find? (fun a => a.matric_fence_code == key)

/-- Detail strings of the raise sites in `GeofenceService`, kept verbatim. -/
def userNotFoundErr : HTTPException := ⟨404, "User not found."⟩

def invalidFenceCodeErr (code : String) : HTTPException :=
  ⟨404, "Invalid fence code: " ++ code⟩

def notActiveErr : HTTPException :=
  ⟨403, "Geofence is not active for attendance."⟩

def alreadyRecordedErr : HTTPException :=
  ⟨403, "You have already recorded attendance for this class"⟩

def notWithinErr : HTTPException :=
  ⟨403, "User is not within geofence, attendance not recorded"⟩

def internalErr : HTTPException :=
  ⟨500, "Something went wrong, contact admin"⟩

def geofenceNotFoundErr (name : String) : HTTPException :=
  ⟨404, "Geofence " ++ name ++ " not found."⟩

def alreadyInactiveErr : HTTPException :=
  ⟨400, "Geofence is already inactive"⟩

def notCreatorErr : HTTPException :=
  ⟨401, "You don't have permission to delete this class as you are not the creator."⟩

def nameConflictErr : HTTPException :=
  ⟨400, "Geofence with this name already exists for today"⟩

def invalidDurationErr : HTTPException :=
  ⟨400, "Invalid duration for geofence. Please adjust duration and try again."⟩

def endInPastErr : HTTPException :=
  ⟨400, "End time cannot be in the past."⟩

/-- Python's `str.lower()` as applied to the status column: character-wise
lowercasing (the stored statuses are the ASCII strings "active" and
"inactive"). -/
def strLower (s : String) : String := ⟨s.data.map Char.toLower⟩

/-- `GeofenceService.record_geofence_attendance`, translated step for step.
`check` abstracts `check_user_in_circular_geofence(lat, long, geofence)`
(its source file is not in the snapshot; the claims quantify over it).
The result pairs the service outcome with the successor state: an
`HTTPException` raised before the insert leaves the state unchanged. -/
def record_geofence_attendance (check : Int → Int → Geofence → Bool)
    (st : GeoState) (fence_code : String) (lat long : Int) (user_matric : String) :
    Except HTTPException String × GeoState :=
  match st.find_user user_matric with
  | none => (.error userNotFoundErr, st)
  | some user =>
    match st.find_geofence_by_code fence_code with
    | none => (.error (invalidFenceCodeErr fence_code), st)
    | some geofence =>
      if strLower geofence.status != "active" then
        (.error notActiveErr, st)
      else
        let matric_fence_code := geofence.fence_code ++ user.user_matric
        match st.find_attendance matric_fence_code with
        | some _ => (.error alreadyRecordedErr, st)
        | none =>
          if !check lat long geofence then
            (.error notWithinErr, st)
          else
            (.ok "Attendance recorded successfully",
             { st with attendances :=
                 st.attendances ++
                   [⟨user.user_matric, fence_code, geofence.name, matric_fence_code⟩] })

/-- `GeofenceService.deactivate_geofence`, translated step for step.  The
repository call `deactivate_geofence(name, date)` (file not in the
snapshot) is modelled from the spec's `update-geofence-status`: it sets the
matching geofence's status to "inactive". -/
def deactivate_geofence (st : GeoState) (geofence_name : String) (date : Int)
    (user_matric : String) : Except HTTPException String × GeoState :=
  match st.find_geofence_by_name_date geofence_name date with
  | none => (.error (geofenceNotFoundErr geofence_name), st)
  | some geofence =>
    if geofence.status == "inactive" then
      (.error alreadyInactiveErr, st)
    else if user_matric != geofence.creator_matric then
      (.error notCreatorErr, st)
    else
      (.ok "Geofence deactivated successfully",
       { st with geofences :=
           st.geofences.map (fun g =>
             if g.name == geofence.name && g.date == date then
               { g with status := "inactive" }
             else g) })

/-- `GeofenceService.create_geofence`, translated step for step.
`fence_code` stands for the six random characters drawn at the top of the
Python function; `now` for `datetime.now(UTC)`.  Timestamps are UTC
instants (`astimezone` preserves the instant, so normalisation is the
identity here).  `insert_ok` injects the behaviour of the storage write:
when the repository insert raises a non-HTTP exception, the Python
`except Exception` handler logs and falls off the end, returning `None`
— embedded as `.ok none`, a success carrying no result. -/
def create_geofence (st : GeoState) (fence_code : String) (creator_matric : String)
    (name : String) (start_time end_time now : Int) (insert_ok : Bool) :
    Except HTTPException (Option (String × String)) × GeoState :=
  match st.find_geofence_by_name_date name start_time with
  | some _ => (.error nameConflictErr, st)
  | none =>
    if start_time ≥ end_time then
      (.error invalidDurationErr, st)
    else if end_time < now then
      (.error endInPastErr, st)
    else if insert_ok then
      (.ok (some (fence_code, name)),
       { st with geofences :=
           st.geofences ++ [⟨name, start_time, creator_matric, fence_code, "active"⟩] })
    else
      (.ok none, st)

/-- A row of the `passwordresettokens` table (`models/PasswordResetToken.py`):
owning user matric, the signed token string (unique), expiry, used flag. -/
structure ResetToken where
  user_id : String
  token : String
  expires_at : Int
  is_used : Bool
deriving DecidableEq, Repr

/-- Modelled from the spec: a session-token row (the `SessionToken` model
file is not in the snapshot) — opaque token string, owning user,
liveness flag (§3, §4.4). -/
structure SessionToken where
  token : String
  user_matric : String
  is_active : Bool
deriving DecidableEq, Repr

/-- The durable state visible to `UserService`, plus the list of queued
outbound e-mail recipients (the observable `background_tasks.add_task`
side effect). -/
structure UserState where
  users : List User
  reset_tokens : List ResetToken
  sessions : List SessionToken
  emails : List String
deriving DecidableEq, Repr

/-- The decoded JWT payload of a password-reset token: `sub` (email),
`username`, `user_matric`, each `none` when the claim is absent
(`payload.get(...)` returning `None`). -/
structure ResetPayload where
  sub : Option String
  username : Option String
  user_matric : Option String
deriving DecidableEq, Repr

/-- Python truthiness of an optional string, as tested by
`all([email, username, user_matric])`: `None` and `""` are falsy. -/
def truthy : Option String → Bool
  | none => false
  | some s => s != ""

/-- The claims returned by `UserService.__decode_password_reset_token`. -/
structure ResetClaims where
  email : String
  username : String
  user_matric : String
deriving DecidableEq, Repr

def invalidLinkErr : HTTPException :=
  ⟨400, "Invalid link. Please request for a new password reset link."⟩

def jwtErrorErr : HTTPException :=
  ⟨401, "Invalid link. Please request for a new password reset link."⟩

def couldNotValidateErr : HTTPException :=
  ⟨401, "Could not validate user"⟩

def changePasswordInternalErr : HTTPException :=
  ⟨500, "Something went wrong"⟩

/-- Modelled from the spec: `mark-reset-token-used` keyed by token value
(`PasswordResetTokenRepository.set_token_is_used(token)` /
`deactivate_token(token)`, repository file not in the snapshot; the row's
only liveness flag is `is_used`). -/
def UserState.mark_token_used (st : UserState) (token : String) : UserState :=
  { st with reset_tokens :=
      st.reset_tokens.map (fun t =>
        if t.token == token then { t with is_used := true } else t) }

/-- Modelled from the spec: `mark-reset-token-used` keyed by user
(`PasswordResetTokenRepository.set_token_is_used(user_matric=...)`):
marks the user's live token(s) used (§4.5 "mark it used (deactivate)
first"; marking already-used rows again is a no-op). -/
def UserState.mark_user_tokens_used (st : UserState) (matric : String) : UserState :=
  { st with reset_tokens :=
      st.reset_tokens.map (fun t =>
        if t.user_id == matric then { t with is_used := true } else t) }

/-- Modelled from the spec: `find-live-reset-token-for-user`
(`PasswordResetTokenRepository.get_token_by_matric`). -/
def UserState.find_live_token_for_user (st : UserState) (matric : String) :
    Option ResetToken :=
  st.reset_tokens.find? (fun t => t.user_id == matric && !t.is_used)

/-- Modelled from the spec: `find-reset-token-by-value`
(`PasswordResetTokenRepository.get_token`). -/
def UserState.find_token (st : UserState) (token : String) : Option ResetToken :=
  st.reset_tokens.find? (fun t => t.token == token)

/-- Modelled from the spec: `insert-reset-token`
(`PasswordResetTokenRepository.add_token`, repository file not in the
snapshot) — persists the signed token string with its expiry, unused. -/
def add_token (st : UserState) (user_id token : String) (expires_at : Int) : UserState :=
  { st with reset_tokens := st.reset_tokens ++ [⟨user_id, token, expires_at, false⟩] }

/-- `UserService.__generate_password_reset_token`, translated step for step:
if a live token exists for the user, mark it used first; then encode the
payload {sub, username, user_matric, exp} (`encode` abstracts
`jwt.encode`; `now + ttl` is the `expires` instant, default ttl twenty
minutes) and persist the signed token unused. -/
def generate_password_reset_token (encode : String → String → String → Int → String)
    (st : UserState) (email username user_matric : String) (now ttl : Int) :
    Except HTTPException String × UserState :=
  match st.find_live_token_for_user user_matric with
  | some _ =>
    (.ok (encode email username user_matric (now + ttl)),
     add_token (st.mark_user_tokens_used user_matric) user_matric
       (encode email username user_matric (now + ttl)) (now + ttl))
  | none =>
    (.ok (encode email username user_matric (now + ttl)),
     add_token st user_matric (encode email username user_matric (now + ttl)) (now + ttl))

/-- `UserService.__decode_password_reset_token`, translated step for step.
`decode` abstracts `jwt.decode` (signature and expiry verification):
`.error` is a `JWTError`, `.ok` the payload.  The persisted-record check
runs before `decode` is consulted; on `JWTError` the record is
deactivated before the 401 is reported; missing/falsy claims yield a 401
without consuming the record; on success the record is marked used. -/
def decode_password_reset_token (decode : String → Except Unit ResetPayload)
    (st : UserState) (token : String) : Except HTTPException ResetClaims × UserState :=
  match st.find_token token with
  | none => (.error invalidLinkErr, st)
  | some existing =>
    if existing.is_used then
      (.error invalidLinkErr, st)
    else
      match decode token with
      | .error _ => (.error jwtErrorErr, st.mark_token_used token)
      | .ok payload =>
        if truthy payload.sub && truthy payload.username && truthy payload.user_matric then
          (.ok ⟨payload.sub.getD "", payload.username.getD "", payload.user_matric.getD ""⟩,
           st.mark_token_used token)
        else
          (.error couldNotValidateErr, st)

/-- `UserService.send_reset_password_email`, translated step for step.  The
user is looked up by e-mail (`get_user_by_email_or_matric(email=...)`);
when no user matches, the function returns `None` early — no token is
generated and no e-mail task is queued.  On the success path it also
returns `None`, after generating a token and queueing the notification. -/
def send_reset_password_email (encode : String → String → String → Int → String)
    (st : UserState) (user_email : String) (now ttl : Int) :
    Except HTTPException Unit × UserState :=
  match st.users.find? (fun u => u.email == user_email) with
  | none => (.ok (), st)
  | some user =>
    let gen := generate_password_reset_token encode st user.email user.username
      user.user_matric now ttl
    (.ok (), { gen.2 with emails := gen.2.emails ++ [user.email] })

/-- `UserRepository.change_user_password`: fetches the first user with the
given e-mail and overwrites their `hashed_password`.  (When no user
matches, the Python attribute write raises and the service's generic
handler turns it into a 500 — handled at the call site.) -/
def change_user_password_rows : List User → String → String → List User
  | [], _, _ => []
  | u :: rest, email, h =>
    if u.email == email then { u with hashed_password := h } :: rest
    else u :: change_user_password_rows rest email h

/-- Modelled from the spec: `deactivate-all-session-tokens-for-user`
(`SessionRepository.deactivate_all_user_sessions`, repository file not in
the snapshot; §4.4 `revokeAll(userId)` marks every token owned by the
user inactive). -/
def UserState.deactivate_all_user_sessions (st : UserState) (matric : String) :
    UserState :=
  { st with sessions :=
      st.sessions.map (fun s =>
        if s.user_matric == matric then { s with is_active := false } else s) }

/-- Modelled from the spec: §4.4 `validate(token)` — looks up the session
token, fails if absent or marked inactive, otherwise returns the owning
user id (the session-dependency source file is not in the snapshot). -/
def validate_session (st : UserState) (token : String) : Except HTTPException String :=
  match st.sessions.find? (fun s => s.token == token) with
  | none => .error ⟨401, "Could not validate user"⟩
  | some s =>
    if s.is_active then .ok s.user_matric
    else .error ⟨401, "Could not validate user"⟩

/-- `UserService.change_password`, translated step for step: decode (and
consume) the reset token, hash and store the new password for the user
found by the embedded e-mail claim, deactivate all of that user's
sessions, queue the notification e-mail. -/
def change_password (decode : String → Except Unit ResetPayload)
    (hash : String → String) (st : UserState) (new_password token : String) :
    Except HTTPException String × UserState :=
  match decode_password_reset_token decode st token with
  | (.error e, st1) => (.error e, st1)
  | (.ok claims, st1) =>
    match st1.users.find? (fun u => u.email == claims.email) with
    | none => (.error changePasswordInternalErr, st1)
    | some _ =>
      let st2 := { st1 with
        users := change_user_password_rows st1.users claims.email (hash new_password) }
      let st3 := st2.deactivate_all_user_sessions claims.user_matric
      (.ok "Successfully changed password",
       { st3 with emails := st3.emails ++ [claims.email] })

instance {α β : Type} [DecidableEq α] [DecidableEq β] : DecidableEq (Except α β) := fun a b =>
  match a, b with
  | .ok x, .ok y => if h : x = y then .isTrue (by rw [h]) else .isFalse (by simp [h])
  | .error x, .error y => if h : x = y then .isTrue (by rw [h]) else .isFalse (by simp [h])
  | .ok _, .error _ => .isFalse (by simp)
  | .error _, .ok _ => .isFalse (by simp)

/-- Modelled from the spec: the storage-visible state of the C1 race —
two concurrent `record_geofence_attendance` calls, A and B, for the same
(user, join code).  Both calls have already passed the user, geofence and
activity checks (those only read rows neither call writes).  `recorded`
says whether the row with the idempotency key exists; `count` counts the
rows inserted with that key; `sawA`/`sawB` hold each call's
duplicate-check result; `resA`/`resB` the calls' outcomes (none while the
call is still running). -/
structure RaceState where
  recorded : Bool
  count : Nat
  sawA : Bool
  sawB : Bool
  resA : Option (Except HTTPException String)
  resB : Option (Except HTTPException String)
deriving DecidableEq, Repr

/-- The atomic storage events of each racing call: `checkX` is the
duplicate-existence read (step 4 of the service); `finishX` is the rest
of the call — raise the "already recorded" conflict when the check saw a
row, else attempt the insert.  Modelled from the spec: the storage layer
enforces the idempotency key's uniqueness atomically (§5), so a second
insert of the same key raises a non-HTTP storage error, which the
service's generic `except Exception` handler converts to the 500
`internalErr`. -/
inductive RaceStep
  | checkA
  | finishA
  | checkB
  | finishB
deriving DecidableEq, Repr

def raceStep (s : RaceState) : RaceStep → RaceState
  | .checkA => { s with sawA := s.recorded }
  | .checkB => { s with sawB := s.recorded }
  | .finishA =>
    if s.sawA then { s with resA := some (.error alreadyRecordedErr) }
    else if s.recorded then { s with resA := some (.error internalErr) }
    else { s with recorded := true, count := s.count + 1,
                  resA := some (.ok "Attendance recorded successfully") }
  | .finishB =>
    if s.sawB then { s with resB := some (.error alreadyRecordedErr) }
    else if s.recorded then { s with resB := some (.error internalErr) }
    else { s with recorded := true, count := s.count + 1,
                  resB := some (.ok "Attendance recorded successfully") }

def raceInit : RaceState := ⟨false, 0, false, false, none, none⟩

def raceRun (steps : List RaceStep) : RaceState :=
  steps.foldl raceStep raceInit

/-- All interleavings of the two calls that respect each call's program
order (check before finish). -/
def raceSchedules : List (List RaceStep) :=
  [[.checkA, .finishA, .checkB, .finishB],
   [.checkA, .checkB, .finishA, .finishB],
   [.checkA, .checkB, .finishB, .finishA],
   [.checkB, .checkA, .finishA, .finishB],
   [.checkB, .checkA, .finishB, .finishA],
   [.checkB, .finishB, .checkA, .finishA]]

/-- Whether a call outcome is a success. -/
def isOkRes : Option (Except HTTPException String) → Bool
  | some (.ok _) => true
  | _ => false

/-- Under every interleaving exactly one attendance row with the key exists
afterwards and exactly one of the two calls succeeds. -/
lemma race_exactly_one_row : ∀ s ∈ raceSchedules,
    (raceRun s).count = 1 ∧
    (isOkRes (raceRun s).resA = true ↔ isOkRes (raceRun s).resB = false) := by
  decide

/-- Helper: `find?` over a mapped list whose mapping preserves the searched
key finds the image of what the original search finds. -/
lemma find?_map_key_preserving {α β : Type} [BEq β] (key : α → β) (f : α → α)
    (hf : ∀ x, key (f x) = key x) (l : List α) (b : β) :
    (l.map f).find? (fun y => key y == b) = (l.find? (fun y => key y == b)).map f := by
  rw [List.find?_map]
  have hp : ((fun y => key y == b) ∘ f) = fun y => key y == b := by
    funext x
    simp [hf]
  rw [hp]

/-- Helper: when the searched key is injectively represented (no duplicate
keys in the list), `find?` at a member's key returns exactly that member. -/
lemma find?_eq_of_nodup_key {α β : Type} [DecidableEq β] (key : α → β)
    (l : List α) (x : α) (hx : x ∈ l) (hn : (l.map key).Nodup) :
    l.find? (fun y => key y == key x) = some x := by
  induction l with
  | nil => cases hx
  | cons a rest ih =>
    rcases List.mem_cons.mp hx with rfl | hmem
    · simp [List.find?]
    · have hne : key a ≠ key x := by
        intro h
        have : key x ∈ rest.map key := List.mem_map_of_mem key hmem
        rw [← h] at this
        exact (List.nodup_cons.mp (by simpa using hn)).1 this
      have hrest := ih hmem (List.nodup_cons.mp (by simpa using hn)).2
      simp [List.find?, beq_eq_false_iff_ne.mpr hne, hrest]

/-- Helper: a successful `find?` on a prefix survives appending. -/
lemma find?_append_of_some {α : Type} (p : α → Bool) (l₁ l₂ : List α) (x : α)
    (h : l₁.find? p = some x) : (l₁ ++ l₂).find? p = some x := by
  rw [List.find?_append, h]
  rfl

/-- Sample rows used by the concrete witnesses below. -/
def wUser : User := ⟨"alice", "m1", "alice@x.y", "h0"⟩

def wActiveFence : Geofence := ⟨"CSC101", 0, "admin1", "code01", "active"⟩

def wInactiveFence : Geofence := ⟨"CSC101", 0, "admin1", "code01", "inactive"⟩

def wRecord : AttendanceRecord := ⟨"m1", "code01", "CSC101", "code01m1"⟩

/-- C2: `record_geofence_attendance` performs its checks in the fixed order
user → geofence → active → duplicate → geometry: an absent user gives the
404 before anything else; an unknown join code the "invalid code" 404; an
inactive geofence the "not active" 403 regardless of the duplicate state
and of the membership test (`st` and `check` are arbitrary); an existing
record for the idempotency key the "already recorded" 403 regardless of
the submitted coordinates and membership test; and only then is the
geometric check consulted. -/
theorem C2_record_attendance_check_order (check : Int → Int → Geofence → Bool)
    (st : GeoState) (code : String) (lat long : Int) (matric : String) :
    (st.find_user matric = none →
      record_geofence_attendance check st code lat long matric
        = (.error userNotFoundErr, st))
    ∧ (∀ u, st.find_user matric = some u → st.find_geofence_by_code code = none →
      record_geofence_attendance check st code lat long matric
        = (.error (invalidFenceCodeErr code), st))
    ∧ (∀ u g, st.find_user matric = some u → st.find_geofence_by_code code = some g →
      strLower g.status ≠ "active" →
      record_geofence_attendance check st code lat long matric
        = (.error notActiveErr, st))
    ∧ (∀ u g r, st.find_user matric = some u → st.find_geofence_by_code code = some g →
      strLower g.status = "active" →
      st.find_attendance (g.fence_code ++ u.user_matric) = some r →
      record_geofence_attendance check st code lat long matric
        = (.error alreadyRecordedErr, st))
    ∧ (∀ u g, st.find_user matric = some u → st.find_geofence_by_code code = some g →
      strLower g.status = "active" →
      st.find_attendance (g.fence_code ++ u.user_matric) = none →
      check lat long g = false →
      record_geofence_attendance check st code lat long matric
        = (.error notWithinErr, st)) := by
  refine ⟨?_, ?_, ?_, ?_, ?_⟩
  · intro hu
    unfold record_geofence_attendance
    rw [hu]
  · intro u hu hg
    unfold record_geofence_attendance
    rw [hu, hg]
  · intro u g hu hg hs
    unfold record_geofence_attendance
    rw [hu, hg]
    simp [hs]
  · intro u g r hu hg hs hr
    unfold record_geofence_attendance
    rw [hu, hg]
    simp [hs, hr]
  · intro u g hu hg hs hr hc
    unfold record_geofence_attendance
    rw [hu, hg]
    simp [hs, hr, hc]

/-- Concrete instances exercising every branch ordering of C2. -/
theorem C2_record_attendance_check_order_witness :
    record_geofence_attendance (fun _ _ _ => true) ⟨[], [wActiveFence], []⟩
        "code01" 1 2 "m1" = (.error userNotFoundErr, ⟨[], [wActiveFence], []⟩)
    ∧ record_geofence_attendance (fun _ _ _ => true) ⟨[wUser], [], []⟩
        "code01" 1 2 "m1" = (.error (invalidFenceCodeErr "code01"), ⟨[wUser], [], []⟩)
    ∧ record_geofence_attendance (fun _ _ _ => true) ⟨[wUser], [wInactiveFence], [wRecord]⟩
        "code01" 1 2 "m1" = (.error notActiveErr, ⟨[wUser], [wInactiveFence], [wRecord]⟩)
    ∧ record_geofence_attendance (fun _ _ _ => true) ⟨[wUser], [wActiveFence], [wRecord]⟩
        "code01" 1 2 "m1" = (.error alreadyRecordedErr, ⟨[wUser], [wActiveFence], [wRecord]⟩)
    ∧ record_geofence_attendance (fun _ _ _ => false) ⟨[wUser], [wActiveFence], []⟩
        "code01" 1 2 "m1" = (.error notWithinErr, ⟨[wUser], [wActiveFence], []⟩) :=
  ⟨(C2_record_attendance_check_order _ _ _ _ _ _).1 (by decide),
   (C2_record_attendance_check_order _ _ _ _ _ _).2.1 wUser (by decide) (by decide),
   (C2_record_attendance_check_order _ _ _ _ _ _).2.2.1 wUser wInactiveFence
     (by decide) (by decide) (by decide),
   (C2_record_attendance_check_order _ _ _ _ _ _).2.2.2.1 wUser wActiveFence wRecord
     (by decide) (by decide) (by decide) (by decide),
   (C2_record_attendance_check_order _ _ _ _ _ _).2.2.2.2 wUser wActiveFence
     (by decide) (by decide) (by decide) (by decide) (by decide)⟩

/-- C3: against a geofence whose status is not "active",
`record_geofence_attendance` always fails with an error and leaves the
state — in particular the attendance table — unchanged, for every
membership test (so even when the coordinates lie within the radius). -/
theorem C3_inactive_geofence_always_rejects (check : Int → Int → Geofence → Bool)
    (st : GeoState) (code : String) (lat long : Int) (matric : String) (g : Geofence)
    (hg : st.find_geofence_by_code code = some g)
    (hs : strLower g.status ≠ "active") :
    ∃ e, record_geofence_attendance check st code lat long matric = (.error e, st) := by
  unfold record_geofence_attendance
  cases hu : st.find_user matric with
  | none => exact ⟨userNotFoundErr, rfl⟩
  | some u =>
    rw [hg]
    exact ⟨notActiveErr, by simp [hs]⟩

/-- Concrete instance of C3: inactive geofence, user present, membership
test returning true (coordinates within radius). -/
theorem C3_inactive_geofence_always_rejects_witness :
    ∃ e, record_geofence_attendance (fun _ _ _ => true)
        ⟨[wUser], [wInactiveFence], []⟩ "code01" 1 2 "m1"
      = (.error e, ⟨[wUser], [wInactiveFence], []⟩) :=
  C3_inactive_geofence_always_rejects (fun _ _ _ => true) _ _ 1 2 "m1" wInactiveFence
    (by decide) (by decide)

/-- C4 counterexample: a requester who is not the creator of an
already-inactive geofence receives the "already inactive" Conflict (the
inactivity check precedes the creator check), not the
authorization error the claim requires for every non-creator. -/
theorem C4_counterexample :
    deactivate_geofence ⟨[], [wInactiveFence], []⟩ "CSC101" 0 "student9"
      = (.error alreadyInactiveErr, ⟨[], [wInactiveFence], []⟩)
    ∧ "student9" ≠ wInactiveFence.creator_matric
    ∧ alreadyInactiveErr ≠ notCreatorErr := by
  decide

/-- Helper: after the deactivation update, the (name, date) lookup returns
the found geofence with its status set to "inactive". -/
lemma find_geofence_after_deactivate (st : GeoState) (name : String) (date : Int)
    (g : Geofence) (hg : st.find_geofence_by_name_date name date = some g) :
    GeoState.find_geofence_by_name_date
      { st with geofences := st.geofences.map (fun g' =>
          if g'.name == g.name && g'.date == date then { g' with status := "inactive" }
          else g') } name date
      = some { g with status := "inactive" } := by
  unfold GeoState.find_geofence_by_name_date at hg ⊢
  have hpg := List.find?_some hg
  have hname : g.name = name := by
    have := (Bool.and_eq_true _ _).mp hpg
    simpa using this.1
  have hdate : g.date = date := by
    have := (Bool.and_eq_true _ _).mp hpg
    simpa using this.2
  rw [List.find?_map]
  have hcomp : ((fun g' : Geofence => g'.name == name && g'.date == date) ∘
      (fun g' : Geofence => if g'.name == g.name && g'.date == date then
        { g' with status := "inactive" } else g'))
      = fun g' : Geofence => g'.name == name && g'.date == date := by
    funext x
    by_cases hx : (x.name == g.name && x.date == date) = true
    · simp [Function.comp, hx]
    · simp [Function.comp, hx]
  rw [hcomp, hg]
  simp [hname, hdate]

/-- C4 amended: for a geofence found under (name, date): a non-creator
requester is rejected with the authorization error — and the state is
unchanged — provided the geofence is not already inactive; an
already-inactive geofence yields the Conflict for any requester; and the
rightful creator's first call succeeds (transitioning the geofence to
"inactive") while their second call fails with the Conflict. -/
theorem C4_deactivate_amended (st : GeoState) (name : String) (date : Int)
    (requester : String) (g : Geofence)
    (hg : st.find_geofence_by_name_date name date = some g) :
    (g.status ≠ "inactive" → requester ≠ g.creator_matric →
      deactivate_geofence st name date requester = (.error notCreatorErr, st))
    ∧ (g.status = "inactive" →
      deactivate_geofence st name date requester = (.error alreadyInactiveErr, st))
    ∧ (g.status ≠ "inactive" → requester = g.creator_matric →
      (deactivate_geofence st name date requester).1
          = .ok "Geofence deactivated successfully"
      ∧ deactivate_geofence (deactivate_geofence st name date requester).2
            name date requester
          = (.error alreadyInactiveErr, (deactivate_geofence st name date requester).2)) := by
  refine ⟨?_, ?_, ?_⟩
  · intro hs hr
    unfold deactivate_geofence
    rw [hg]
    simp [hs, hr]
  · intro hs
    unfold deactivate_geofence
    rw [hg]
    simp [hs]
  · intro hs hr
    have hfirst : deactivate_geofence st name date requester
        = (.ok "Geofence deactivated successfully",
           { st with geofences := st.geofences.map (fun g' =>
               if g'.name == g.name && g'.date == date then
                 { g' with status := "inactive" } else g') }) := by
      unfold deactivate_geofence
      rw [hg]
      simp [hs, hr]
    refine ⟨by rw [hfirst], ?_⟩
    rw [hfirst]
    have hfind := find_geofence_after_deactivate st name date g hg
    unfold deactivate_geofence
    rw [hfind]
    simp

/-- Concrete instances of the amended C4: non-creator rejected on an active
geofence with unchanged state; conflict on an inactive one; the creator's
two successive calls. -/
theorem C4_deactivate_amended_witness :
    deactivate_geofence ⟨[], [wActiveFence], []⟩ "CSC101" 0 "student9"
      = (.error notCreatorErr, ⟨[], [wActiveFence], []⟩)
    ∧ deactivate_geofence ⟨[], [wInactiveFence], []⟩ "CSC101" 0 "admin1"
      = (.error alreadyInactiveErr, ⟨[], [wInactiveFence], []⟩)
    ∧ ((deactivate_geofence ⟨[], [wActiveFence], []⟩ "CSC101" 0 "admin1").1
          = .ok "Geofence deactivated successfully"
      ∧ deactivate_geofence
            (deactivate_geofence ⟨[], [wActiveFence], []⟩ "CSC101" 0 "admin1").2
            "CSC101" 0 "admin1"
          = (.error alreadyInactiveErr,
             (deactivate_geofence ⟨[], [wActiveFence], []⟩ "CSC101" 0 "admin1").2)) :=
  ⟨(C4_deactivate_amended _ _ _ _ wActiveFence (by decide)).1 (by decide) (by decide),
   (C4_deactivate_amended _ _ _ _ wInactiveFence (by decide)).2.1 (by decide),
   (C4_deactivate_amended _ _ _ _ wActiveFence (by decide)).2.2 (by decide) (by decide)⟩

/-- The two raise sites §7 classifies as `ValidationError` in
`create_geofence`: bad time window. -/
def isValidationError (e : HTTPException) : Prop :=
  e = invalidDurationErr ∨ e = endInPastErr

/-- C5 counterexample: a request with start ≥ end whose (name, start date)
collides with an existing geofence fails with the duplicate-name Conflict
— the conflict check precedes the time validations — not with a
ValidationError as the claim requires for every such request. -/
theorem C5_counterexample :
    (create_geofence ⟨[], [⟨"CSC101", 5, "admin1", "code01", "active"⟩], []⟩
        "zzz111" "admin1" "CSC101" 5 3 0 true).1 = .error nameConflictErr
    ∧ (5 : Int) ≥ 3
    ∧ ¬ isValidationError nameConflictErr := by
  refine ⟨by decide, by decide, ?_⟩
  intro h
  rcases h with h | h <;> simp [nameConflictErr, invalidDurationErr, endInPastErr] at h

/-- C5 amended: provided no geofence with the same name and start date
already exists, `create_geofence` with start ≥ end fails with the
"invalid duration" ValidationError, and with end < now it fails with one
of the two time ValidationErrors regardless of the start time; in both
cases the state is unchanged. -/
theorem C5_create_time_validation (st : GeoState) (code creator name : String)
    (start_time end_time now : Int) (insert_ok : Bool)
    (h : st.find_geofence_by_name_date name start_time = none) :
    (start_time ≥ end_time →
      create_geofence st code creator name start_time end_time now insert_ok
        = (.error invalidDurationErr, st))
    ∧ (end_time < now →
      create_geofence st code creator name start_time end_time now insert_ok
          = (.error invalidDurationErr, st)
      ∨ create_geofence st code creator name start_time end_time now insert_ok
          = (.error endInPastErr, st)) := by
  constructor
  · intro hse
    unfold create_geofence
    rw [h]
    simp [hse]
  · intro hen
    by_cases hse : start_time ≥ end_time
    · left
      unfold create_geofence
      rw [h]
      simp [hse]
    · right
      unfold create_geofence
      rw [h]
      simp [hse, hen, not_le.mp hse]

/-- Concrete instances of the amended C5: start ≥ end, and end in the past
with a small start. -/
theorem C5_create_time_validation_witness :
    create_geofence ⟨[], [], []⟩ "zzz111" "admin1" "CSC101" 5 3 0 true
      = (.error invalidDurationErr, ⟨[], [], []⟩)
    ∧ (create_geofence ⟨[], [], []⟩ "zzz111" "admin1" "CSC101" 1 3 10 true
        = (.error invalidDurationErr, ⟨[], [], []⟩)
      ∨ create_geofence ⟨[], [], []⟩ "zzz111" "admin1" "CSC101" 1 3 10 true
        = (.error endInPastErr, ⟨[], [], []⟩)) :=
  ⟨(C5_create_time_validation _ _ _ _ 5 3 0 true (by decide)).1 (by decide),
   (C5_create_time_validation _ _ _ _ 1 3 10 true (by decide)).2 (by decide)⟩

/-- C10: when the storage write raises, `create_geofence` returns `None`
(here `.ok none`) — neither the (joinCode, name) pair nor a typed error —
silently swallowing the failure, with nothing persisted. -/
theorem C10_create_geofence_swallows_storage_failure :
    create_geofence ⟨[], [], []⟩ "code01" "admin1" "CSC101" 0 10 0 false
      = (.ok none, ⟨[], [], []⟩) := by
  decide

/-- C1: under the interleaving check-A, check-B, insert-A, insert-B of two
racing `record_geofence_attendance` calls for the same (user, join code),
exactly one attendance row exists afterwards, call A succeeds, and call B
fails — but with the generic 500 internal error produced by the service's
`except Exception` handler, not with the "already recorded" Conflict the
claim requires. -/
theorem C1_race_second_call_internal_error :
    (raceRun [.checkA, .checkB, .finishA, .finishB]).resA
        = some (.ok "Attendance recorded successfully")
    ∧ (raceRun [.checkA, .checkB, .finishA, .finishB]).resB
        = some (.error internalErr)
    ∧ internalErr ≠ alreadyRecordedErr
    ∧ (raceRun [.checkA, .checkB, .finishA, .finishB]).count = 1 := by
  decide

/-- Every persisted copy of the given reset-token string is marked used:
the token can no longer be consumed. -/
def UserState.token_dead (st : UserState) (token : String) : Prop :=
  ∀ t ∈ st.reset_tokens, t.token = token → t.is_used = true

lemma mark_token_used_dead (st : UserState) (tok : String) :
    (st.mark_token_used tok).token_dead tok := by
  intro t ht htok
  unfold UserState.mark_token_used at ht
  simp only [List.mem_map] at ht
  obtain ⟨t', _, rfl⟩ := ht
  by_cases h : (t'.token == tok) = true
  · simp [h]
  · rw [if_neg h] at htok ⊢
    exact absurd (beq_iff_eq.mpr htok) (by simpa using h)

/-- C6: `__decode_password_reset_token` first consults the persisted record
and answers the invalid-link error when it is absent or already used —
with a result independent of the signature-verification function, so no
verification is attempted; on signature failure (`JWTError`) the
persisted record is deactivated before the 401 is reported; a payload
with a missing (or empty) email, username, or user-id claim fails closed
with a 401; and on success the persisted record is marked used, giving
single consumption. -/
theorem C6_reset_token_validation (decode decode2 : String → Except Unit ResetPayload)
    (st : UserState) (token : String) :
    (st.find_token token = none →
      decode_password_reset_token decode st token = (.error invalidLinkErr, st)
      ∧ decode_password_reset_token decode st token
          = decode_password_reset_token decode2 st token)
    ∧ (∀ t, st.find_token token = some t → t.is_used = true →
      decode_password_reset_token decode st token = (.error invalidLinkErr, st)
      ∧ decode_password_reset_token decode st token
          = decode_password_reset_token decode2 st token)
    ∧ (∀ t, st.find_token token = some t → t.is_used = false →
      decode token = .error () →
      decode_password_reset_token decode st token
          = (.error jwtErrorErr, st.mark_token_used token)
      ∧ (decode_password_reset_token decode st token).2.token_dead token)
    ∧ (∀ t p, st.find_token token = some t → t.is_used = false →
      decode token = .ok p →
      (truthy p.sub = false ∨ truthy p.username = false ∨ truthy p.user_matric = false) →
      decode_password_reset_token decode st token = (.error couldNotValidateErr, st))
    ∧ (∀ t p, st.find_token token = some t → t.is_used = false →
      decode token = .ok p →
      truthy p.sub = true → truthy p.username = true → truthy p.user_matric = true →
      decode_password_reset_token decode st token
          = (.ok ⟨p.sub.getD "", p.username.getD "", p.user_matric.getD ""⟩,
             st.mark_token_used token)
      ∧ (decode_password_reset_token decode st token).2.token_dead token) := by
  refine ⟨?_, ?_, ?_, ?_, ?_⟩
  · intro h
    unfold decode_password_reset_token
    rw [h]
    exact ⟨rfl, rfl⟩
  · intro t h hu
    unfold decode_password_reset_token
    rw [h]
    simp [hu]
  · intro t h hu hd
    have heq : decode_password_reset_token decode st token
        = (.error jwtErrorErr, st.mark_token_used token) := by
      unfold decode_password_reset_token
      rw [h, hd]
      simp [hu]
    exact ⟨heq, by rw [heq]; exact mark_token_used_dead st token⟩
  · intro t p h hu hd hfalsy
    unfold decode_password_reset_token
    rw [h, hd]
    rcases hfalsy with hf | hf | hf <;> simp [hu, hf]
  · intro t p h hu hd h1 h2 h3
    have heq : decode_password_reset_token decode st token
        = (.ok ⟨p.sub.getD "", p.username.getD "", p.user_matric.getD ""⟩,
           st.mark_token_used token) := by
      unfold decode_password_reset_token
      rw [h, hd]
      simp [hu, h1, h2, h3]
    exact ⟨heq, by rw [heq]; exact mark_token_used_dead st token⟩

/-- Sample reset-token rows and decoders for the concrete witnesses. -/
def wLiveToken : ResetToken := ⟨"m1", "tok1", 100, false⟩

def wUsedToken : ResetToken := ⟨"m1", "tok2", 100, true⟩

def wGoodDecode : String → Except Unit ResetPayload := fun t =>
  if t = "tok1" then .ok ⟨some "alice@x.y", some "alice", some "m1"⟩ else .error ()

def wBadDecode : String → Except Unit ResetPayload := fun _ => .error ()

def wMissingClaimDecode : String → Except Unit ResetPayload := fun _ =>
  .ok ⟨some "alice@x.y", none, some "m1"⟩

def wResetState : UserState := ⟨[wUser], [wLiveToken, wUsedToken], [], []⟩

/-- Concrete instances of C6: absent record, used record (with the result
independent of the decoder), signature failure, missing claim, success. -/
theorem C6_reset_token_validation_witness :
    (decode_password_reset_token wGoodDecode wResetState "nope"
        = (.error invalidLinkErr, wResetState)
      ∧ decode_password_reset_token wGoodDecode wResetState "nope"
        = decode_password_reset_token wBadDecode wResetState "nope")
    ∧ (decode_password_reset_token wGoodDecode wResetState "tok2"
        = (.error invalidLinkErr, wResetState)
      ∧ decode_password_reset_token wGoodDecode wResetState "tok2"
        = decode_password_reset_token wBadDecode wResetState "tok2")
    ∧ decode_password_reset_token wBadDecode wResetState "tok1"
        = (.error jwtErrorErr, wResetState.mark_token_used "tok1")
    ∧ decode_password_reset_token wMissingClaimDecode wResetState "tok1"
        = (.error couldNotValidateErr, wResetState)
    ∧ decode_password_reset_token wGoodDecode wResetState "tok1"
        = (.ok ⟨"alice@x.y", "alice", "m1"⟩, wResetState.mark_token_used "tok1") :=
  ⟨(C6_reset_token_validation wGoodDecode wBadDecode wResetState "nope").1 (by decide),
   (C6_reset_token_validation wGoodDecode wBadDecode wResetState "tok2").2.1
     wUsedToken (by decide) (by decide),
   ((C6_reset_token_validation wBadDecode wBadDecode wResetState "tok1").2.2.1
     wLiveToken (by decide) (by decide) (by decide)).1,
   (C6_reset_token_validation wMissingClaimDecode wBadDecode wResetState "tok1").2.2.2.1
     wLiveToken ⟨some "alice@x.y", none, some "m1"⟩ (by decide) (by decide) (by decide)
     (Or.inr (Or.inl (by decide))),
   ((C6_reset_token_validation wGoodDecode wBadDecode wResetState "tok1").2.2.2.2
     wLiveToken ⟨some "alice@x.y", some "alice", some "m1"⟩ (by decide) (by decide)
     (by decide) (by decide) (by decide) (by decide)).1⟩

/-- Helper: when no live reset token exists for a user, every persisted
token of that user is already used. -/
lemma all_used_of_no_live_token (st : UserState) (matric : String)
    (h : st.find_live_token_for_user matric = none) :
    ∀ t ∈ st.reset_tokens, t.user_id = matric → t.is_used = true := by
  simpa [UserState.find_live_token_for_user, List.find?_eq_none] using h

/-- Helper: after `mark_user_tokens_used`, every token of the user is used. -/
lemma mark_user_tokens_used_spec (st : UserState) (matric : String) :
    ∀ t ∈ (st.mark_user_tokens_used matric).reset_tokens,
      t.user_id = matric → t.is_used = true := by
  intro t ht hu
  unfold UserState.mark_user_tokens_used at ht
  simp only [List.mem_map] at ht
  obtain ⟨t', _, rfl⟩ := ht
  by_cases hc : (t'.user_id == matric) = true
  · rw [if_pos hc]
  · rw [if_neg hc] at hu
    exact absurd (beq_iff_eq.mpr hu) (by simpa using hc)

/-- C7: after issuing a new reset token for a user (a fresh signed string,
token strings being unique), every other persisted token of that user is
marked used — so at most the new token is live — and validating any
previously persisted token of that user afterwards fails with the
invalid-link rejection of reused tokens, for every signature verifier
(hence even if the old token has not expired). -/
theorem C7_reissue_invalidates_prior
    (encode : String → String → String → Int → String) (st : UserState)
    (email username matric : String) (now ttl : Int) (t0 : ResetToken)
    (ht0 : t0 ∈ st.reset_tokens)
    (huser : t0.user_id = matric)
    (hnodup : (st.reset_tokens.map ResetToken.token).Nodup) :
    (∀ t ∈ (generate_password_reset_token encode st email username matric now ttl).2.reset_tokens,
        t.user_id = matric → t.token ≠ encode email username matric (now + ttl) →
        t.is_used = true)
    ∧ (∀ d, decode_password_reset_token d
          (generate_password_reset_token encode st email username matric now ttl).2 t0.token
        = (.error invalidLinkErr,
           (generate_password_reset_token encode st email username matric now ttl).2)) := by
  cases hlive : st.find_live_token_for_user matric with
  | some tl =>
    have hR : (generate_password_reset_token encode st email username matric now ttl).2
        = add_token (st.mark_user_tokens_used matric) matric
            (encode email username matric (now + ttl)) (now + ttl) := by
      simp [generate_password_reset_token, hlive]
    constructor
    · intro t ht hu hne
      rw [hR] at ht
      have ht' : t ∈ (st.mark_user_tokens_used matric).reset_tokens
          ∨ t ∈ [(⟨matric, encode email username matric (now + ttl), now + ttl,
              false⟩ : ResetToken)] := by
        simpa [add_token] using ht
      rcases ht' with hin | hnew
      · exact mark_user_tokens_used_spec st matric t hin hu
      · simp only [List.mem_singleton] at hnew
        rw [hnew] at hne
        exact absurd rfl hne
    · intro d
      have hfind1 : ((st.mark_user_tokens_used matric).reset_tokens).find?
          (fun y => y.token == t0.token) = some { t0 with is_used := true } := by
        unfold UserState.mark_user_tokens_used
        rw [find?_map_key_preserving ResetToken.token _
          (by
            intro x
            by_cases hx : (x.user_id == matric) = true
            · rw [if_pos hx]
            · rw [if_neg hx]) st.reset_tokens t0.token]
        rw [find?_eq_of_nodup_key ResetToken.token st.reset_tokens t0 ht0 hnodup]
        simp only [Option.map_some']
        rw [if_pos (beq_iff_eq.mpr huser)]
      have hfind2 : (generate_password_reset_token encode st email username matric
            now ttl).2.find_token t0.token = some { t0 with is_used := true } := by
        rw [hR]
        unfold UserState.find_token add_token
        exact find?_append_of_some _ _ _ _ hfind1
      unfold decode_password_reset_token
      rw [hfind2]
      simp
  | none =>
    have hR : (generate_password_reset_token encode st email username matric now ttl).2
        = add_token st matric (encode email username matric (now + ttl)) (now + ttl) := by
      simp [generate_password_reset_token, hlive]
    have ht0used : t0.is_used = true := all_used_of_no_live_token st matric hlive t0 ht0 huser
    constructor
    · intro t ht hu hne
      rw [hR] at ht
      have ht' : t ∈ st.reset_tokens
          ∨ t ∈ [(⟨matric, encode email username matric (now + ttl), now + ttl,
              false⟩ : ResetToken)] := by
        simpa [add_token] using ht
      rcases ht' with hin | hnew
      · exact all_used_of_no_live_token st matric hlive t hin hu
      · simp only [List.mem_singleton] at hnew
        rw [hnew] at hne
        exact absurd rfl hne
    · intro d
      have hfind2 : (generate_password_reset_token encode st email username matric
            now ttl).2.find_token t0.token = some t0 := by
        rw [hR]
        unfold UserState.find_token add_token
        exact find?_append_of_some _ _ _ _
          (find?_eq_of_nodup_key ResetToken.token st.reset_tokens t0 ht0 hnodup)
      unfold decode_password_reset_token
      rw [hfind2]
      simp [ht0used]

/-- Concrete instance of C7: one live token "tok1" for user "m1"; after
reissuing, validating "tok1" fails with the invalid-link rejection even
under a decoder that would still accept it. -/
theorem C7_reissue_invalidates_prior_witness :
    decode_password_reset_token wGoodDecode
        (generate_password_reset_token (fun _ _ _ _ => "newtok")
          ⟨[wUser], [wLiveToken], [], []⟩ "alice@x.y" "alice" "m1" 0 20).2
        wLiveToken.token
      = (.error invalidLinkErr,
         (generate_password_reset_token (fun _ _ _ _ => "newtok")
           ⟨[wUser], [wLiveToken], [], []⟩ "alice@x.y" "alice" "m1" 0 20).2) :=
  (C7_reissue_invalidates_prior (fun _ _ _ _ => "newtok") ⟨[wUser], [wLiveToken], [], []⟩
    "alice@x.y" "alice" "m1" 0 20 wLiveToken (by decide) (by decide) (by decide)).2
    wGoodDecode

/-- Helper: `change_password` propagates a failed token validation
unchanged. -/
lemma change_password_of_decode_error (decode : String → Except Unit ResetPayload)
    (hash : String → String) (st : UserState) (new_password tok : String)
    (e : HTTPException)
    (h : decode_password_reset_token decode st tok = (.error e, st)) :
    change_password decode hash st new_password tok = (.error e, st) := by
  unfold change_password
  rw [h]

/-- C8: with a persisted, unused reset token whose payload decodes to truthy
claims naming an existing user, `change_password` succeeds; a second
attempt with the same token fails with the invalid-link rejection (its
persisted record was consumed); and every session token the user held
beforehand fails `validate_session` afterwards (all their sessions were
deactivated). -/
theorem C8_change_password_single_use
    (decode : String → Except Unit ResetPayload) (hash : String → String)
    (st : UserState) (new_password tok : String) (t0 : ResetToken) (p : ResetPayload)
    (u : User)
    (hfind : st.find_token tok = some t0)
    (hlive : t0.is_used = false)
    (hdec : decode tok = .ok p)
    (h1 : truthy p.sub = true) (h2 : truthy p.username = true)
    (h3 : truthy p.user_matric = true)
    (huser : st.users.find? (fun v => v.email == p.sub.getD "") = some u)
    (hsess : (st.sessions.map SessionToken.token).Nodup) :
    (change_password decode hash st new_password tok).1
        = .ok "Successfully changed password"
    ∧ change_password decode hash (change_password decode hash st new_password tok).2
          new_password tok
        = (.error invalidLinkErr, (change_password decode hash st new_password tok).2)
    ∧ ∀ s ∈ st.sessions, s.user_matric = p.user_matric.getD "" →
        validate_session (change_password decode hash st new_password tok).2 s.token
          = .error ⟨401, "Could not validate user"⟩ := by
  have hd : decode_password_reset_token decode st tok
      = (.ok ⟨p.sub.getD "", p.username.getD "", p.user_matric.getD ""⟩,
         st.mark_token_used tok) := by
    unfold decode_password_reset_token
    rw [hfind, hdec]
    simp [hlive, h1, h2, h3]
  have hfull : change_password decode hash st new_password tok
      = (.ok "Successfully changed password",
         { users := change_user_password_rows st.users (p.sub.getD "") (hash new_password),
           reset_tokens := st.reset_tokens.map (fun t =>
             if t.token == tok then { t with is_used := true } else t),
           sessions := st.sessions.map (fun x =>
             if x.user_matric == p.user_matric.getD "" then { x with is_active := false }
             else x),
           emails := st.emails ++ [p.sub.getD ""] }) := by
    unfold change_password
    rw [hd]
    simp only [UserState.mark_token_used, UserState.deactivate_all_user_sessions]
    rw [huser]
  have htokeq : (t0.token == tok) = true := by
    have := List.find?_some (by simpa [UserState.find_token] using hfind)
    exact this
  refine ⟨by rw [hfull], ?_, ?_⟩
  · have hfind2 : (change_password decode hash st new_password tok).2.find_token tok
        = some { t0 with is_used := true } := by
      rw [hfull]
      unfold UserState.find_token
      simp only
      rw [find?_map_key_preserving ResetToken.token _
        (by
          intro x
          by_cases hx : (x.token == tok) = true
          · rw [if_pos hx]
          · rw [if_neg hx]) st.reset_tokens tok]
      have : st.reset_tokens.find? (fun t => t.token == tok) = some t0 := by
        simpa [UserState.find_token] using hfind
      rw [this]
      simp only [Option.map_some']
      rw [if_pos htokeq]
    exact change_password_of_decode_error decode hash _ new_password tok invalidLinkErr
      (by
        unfold decode_password_reset_token
        rw [hfind2]
        simp)
  · intro s hs hsm
    have hsf : (change_password decode hash st new_password tok).2.sessions.find?
        (fun y => y.token == s.token) = some { s with is_active := false } := by
      rw [hfull]
      simp only
      rw [find?_map_key_preserving SessionToken.token _
        (by
          intro x
          by_cases hx : (x.user_matric == p.user_matric.getD "") = true
          · rw [if_pos hx]
          · rw [if_neg hx]) st.sessions s.token]
      rw [find?_eq_of_nodup_key SessionToken.token st.sessions s hs hsess]
      simp only [Option.map_some']
      rw [if_pos (beq_iff_eq.mpr hsm)]
    unfold validate_session
    rw [hsf]
    simp

/-- A live session row for the C8 witness. -/
def wSession : SessionToken := ⟨"sess1", "m1", true⟩

def wC8State : UserState := ⟨[wUser], [wLiveToken], [wSession], []⟩

/-- Concrete instance of C8: the password change succeeds once, the token
cannot be consumed twice, and the user's pre-existing session token no
longer validates. -/
theorem C8_change_password_single_use_witness :
    (change_password wGoodDecode (fun _ => "H") wC8State "npw" "tok1").1
        = .ok "Successfully changed password"
    ∧ change_password wGoodDecode (fun _ => "H")
          (change_password wGoodDecode (fun _ => "H") wC8State "npw" "tok1").2
          "npw" "tok1"
        = (.error invalidLinkErr,
           (change_password wGoodDecode (fun _ => "H") wC8State "npw" "tok1").2)
    ∧ validate_session (change_password wGoodDecode (fun _ => "H") wC8State "npw" "tok1").2
          wSession.token
        = .error ⟨401, "Could not validate user"⟩ :=
  ⟨(C8_change_password_single_use wGoodDecode (fun _ => "H") wC8State "npw" "tok1"
      wLiveToken ⟨some "alice@x.y", some "alice", some "m1"⟩ wUser
      (by decide) (by decide) (by decide) (by decide) (by decide) (by decide)
      (by decide) (by decide)).1,
   (C8_change_password_single_use wGoodDecode (fun _ => "H") wC8State "npw" "tok1"
      wLiveToken ⟨some "alice@x.y", some "alice", some "m1"⟩ wUser
      (by decide) (by decide) (by decide) (by decide) (by decide) (by decide)
      (by decide) (by decide)).2.1,
   (C8_change_password_single_use wGoodDecode (fun _ => "H") wC8State "npw" "tok1"
      wLiveToken ⟨some "alice@x.y", some "alice", some "m1"⟩ wUser
      (by decide) (by decide) (by decide) (by decide) (by decide) (by decide)
      (by decide) (by decide)).2.2 wSession (by decide) (by decide)⟩

/-- C9: `send_reset_password_email` for an e-mail with no matching user
returns successfully with the state — reset tokens and queued e-mails
included — completely unchanged, and its returned value is the same
`.ok ()` the existing-user case yields, so the caller observes no
difference (no account enumeration). -/
theorem C9_unknown_email_reset_noop
    (encode : String → String → String → Int → String) (st : UserState)
    (email : String) (now ttl : Int) :
    (st.users.find? (fun u => u.email == email) = none →
      send_reset_password_email encode st email now ttl = (.ok (), st))
    ∧ (send_reset_password_email encode st email now ttl).1 = .ok () := by
  constructor
  · intro h
    unfold send_reset_password_email
    rw [h]
  · unfold send_reset_password_email
    cases h : st.users.find? (fun u => u.email == email) with
    | none => rfl
    | some u => rfl

/-- Concrete instance of C9: no user has the address, the call is a
complete no-op; and on a state where the user exists the returned value
is identical. -/
theorem C9_unknown_email_reset_noop_witness :
    send_reset_password_email (fun _ _ _ _ => "newtok") ⟨[wUser], [], [], []⟩
        "nobody@x.y" 0 20
      = (.ok (), ⟨[wUser], [], [], []⟩)
    ∧ (send_reset_password_email (fun _ _ _ _ => "newtok") ⟨[wUser], [], [], []⟩
        "alice@x.y" 0 20).1 = .ok () :=
  ⟨(C9_unknown_email_reset_noop (fun _ _ _ _ => "newtok") ⟨[wUser], [], [], []⟩
      "nobody@x.y" 0 20).1 (by decide),
   (C9_unknown_email_reset_noop (fun _ _ _ _ => "newtok") ⟨[wUser], [], [], []⟩
      "alice@x.y" 0 20).2⟩
